import Mathlib

/-
Verification of the hypervolt-charger integration core against its
natural-language specification.

The definitions below are a shallow embedding of the Python sources in
custom_components/hypervolt_charger/.  JSON numbers are modelled as
rationals, Python None-able attributes as Option, in-place mutation as
explicit state passing, and a raised exception as an explicit Boolean or
Except component of the result (carrying the state as mutated up to the
point of the raise, matching Python in-place semantics).
-/

set_option linter.unusedVariables false

namespace Hypervolt

/-! ## Data model (hypervolt_device_state.py) -/

inductive HypervoltLockState
  | UNLOCKED
  | PENDING_LOCK
  | LOCKED
  deriving DecidableEq, Repr

inductive HypervoltChargeMode
  | BOOST
  | ECO
  | SUPER_ECO
  deriving DecidableEq, Repr

inductive HypervoltActivationMode
  | PLUG_AND_CHARGE
  | SCHEDULE
  deriving DecidableEq, Repr

inductive HypervoltReleaseState
  | DEFAULT
  | RELEASED
  deriving DecidableEq, Repr

/-- A schedule interval (start/end time-of-day modelled as seconds since
midnight), with the V3-specific charge mode and days-of-week bitmask.
Defaults mirror the Python constructor (BOOST, HypervoltDayOfWeek.ALL). -/
structure HypervoltScheduleInterval where
  start_time : Nat
  end_time : Nat
  charge_mode : HypervoltChargeMode := .BOOST
  days_of_week : Nat := 127
  deriving DecidableEq, Repr

/-- HypervoltDeviceState: the mutable snapshot of all known charger
attributes.  Every field that Python initialises to None is an Option,
unknown-until-observed. -/
structure HypervoltDeviceState where
  charger_id : Option String := none
  is_charging : Option Bool := none
  session_id : Option ℚ := none
  session_watthours : Option ℚ := none
  session_currency_spent : Option ℚ := none
  session_carbon_saved_grams : Option ℚ := none
  max_current_milliamps : Option ℚ := none
  current_session_current_milliamps : Option ℚ := none
  current_session_ct_current : Option ℚ := none
  current_session_ct_power : Option ℚ := none
  current_session_voltage : Option ℚ := none
  ev_power : Option ℚ := none
  house_power : Option ℚ := none
  grid_power : Option ℚ := none
  generation_power : Option ℚ := none
  led_brightness : Option ℚ := none
  lock_state : Option HypervoltLockState := none
  charge_mode : Option HypervoltChargeMode := none
  release_state : Option HypervoltReleaseState := none
  activation_mode : Option HypervoltActivationMode := none
  schedule_intervals : Option (List HypervoltScheduleInterval) := none
  schedule_tz : Option String := none
  schedule_type : Option String := none
  schedule_intervals_to_apply : Option (List HypervoltScheduleInterval) := none
  session_watthours_total_increasing : Option ℚ := none
  current_session_power : ℚ := 0
  deriving DecidableEq, Repr

/-! ## Python value helpers -/

/-- Python truthiness coercion used in the source expression
"x if x else 0" applied to an optional number: None is falsy and 0 is
falsy (both give 0), any other number gives itself. -/
def pyNumOrZero : Option ℚ → ℚ
  | none => 0
  | some x => if x = 0 then 0 else x

/-- Python truthiness of an optional Bool field: only True is truthy
(None and False are falsy). -/
def pyTruthyBool : Option Bool → Bool
  | some true => true
  | _ => false

/-! ## MessageCodec: session payloads (hypervolt_api_client.py,
HypervoltApiClient.on_message_session) -/

/-- The keys of a get.session / session-in-progress JSON payload that
on_message_session reads.  A key absent from the wire dict is none. -/
structure SessionMessage where
  charging : Option Bool := none
  session : Option ℚ := none
  watt_hours : Option ℚ := none
  carbon_saved_grams : Option ℚ := none
  true_milli_amps : Option ℚ := none
  ct_current : Option ℚ := none
  voltage : Option ℚ := none
  ct_power : Option ℚ := none
  ev_power : Option ℚ := none
  house_power : Option ℚ := none
  grid_power : Option ℚ := none
  generation_power : Option ℚ := none
  deriving DecidableEq, Repr

/-- The per-field update block of on_message_session: each field of the
state is overwritten exactly when the corresponding key is present in the
payload ("Only update state if properties are present, otherwise leave
state as-is").  current_session_ct_power is written twice in the source
(from the ct_power key, then recomputed from ct_current and voltage when
both are present); the recomputation reads state.current_session_voltage,
which at that point equals the voltage value of the payload. -/
def on_message_session_field_updates (result : SessionMessage)
    (state : HypervoltDeviceState) : HypervoltDeviceState :=
  { state with
    is_charging :=
      match result.charging with
      | some v => some v
      | none => state.is_charging,
    session_id :=
      match result.session with
      | some v => some v
      | none => state.session_id,
    session_watthours :=
      match result.watt_hours with
      | some v => some v
      | none => state.session_watthours,
    session_carbon_saved_grams :=
      match result.carbon_saved_grams with
      | some v => some v
      | none => state.session_carbon_saved_grams,
    current_session_current_milliamps :=
      match result.true_milli_amps with
      | some v => some v
      | none => state.current_session_current_milliamps,
    current_session_ct_current :=
      match result.ct_current with
      | some v => some v
      | none => state.current_session_ct_current,
    current_session_voltage :=
      match result.voltage with
      | some v => some v
      | none => state.current_session_voltage,
    current_session_ct_power :=
      match result.ct_current, result.voltage with
      | some c, some v => some (v * c / 1000)
      | _, _ =>
        (match result.ct_power with
        | some v => some v
        | none => state.current_session_ct_power),
    ev_power :=
      match result.ev_power with
      | some v => some v
      | none => state.ev_power,
    house_power :=
      match result.house_power with
      | some v => some v
      | none => state.house_power,
    grid_power :=
      match result.grid_power with
      | some v => some v
      | none => state.grid_power,
    generation_power :=
      match result.generation_power with
      | some v => some v
      | none => state.generation_power }

/-- HypervoltApiClient.on_message_session.  The Boolean in the result is
true when the Python code raises: while charging, the derived-counter
expression max(prev if prev else 0, state.session_watthours) raises a
TypeError when state.session_watthours is still None.  The state
component carries all in-place mutations performed before the raise. -/
def on_message_session (result : SessionMessage)
    (state : HypervoltDeviceState) : HypervoltDeviceState × Bool :=
  let state := on_message_session_field_updates result state
  if pyTruthyBool state.is_charging then
    match state.session_watthours with
    | none => (state, true)
    | some wh =>
      let new_total := max (pyNumOrZero state.session_watthours_total_increasing) wh
      ({ state with session_watthours_total_increasing := some new_total }, false)
  else
    ({ state with session_watthours_total_increasing := none }, false)

/-- HypervoltApiClient.on_session_in_progress_websocket_message: parses
the payload, applies on_message_session, and catches every exception
(logging it).  The in-place mutations performed before a raise are kept;
the exception never propagates to the websocket loop. -/
def on_session_in_progress_websocket_message (message : SessionMessage)
    (state : HypervoltDeviceState) : HypervoltDeviceState :=
  (on_message_session message state).1

/-- A get.session payload carrying charging=true, a session id and a raw
watt-hours reading (the shape exercised by the energy-counter claims). -/
def charging_session_message (sid wh : ℚ) : SessionMessage :=
  { charging := some true, session := some sid, watt_hours := some wh }

/-- Sequential application of session payloads to the shared state, in
arrival order. -/
def apply_session_messages (msgs : List SessionMessage)
    (state : HypervoltDeviceState) : HypervoltDeviceState :=
  msgs.foldl (fun st m => (on_message_session m st).1) state

/-! ## MessageCodec: sync.snapshot / sync.apply items
(HypervoltApiClient.on_message_sync_snapshot) -/

/-- One element of the params/result array of a sync.snapshot or
sync.apply frame, restricted to the keys the handler reads; enum-coded
fields carry their raw wire string. -/
structure SyncItem where
  brightness : Option ℚ := none
  lock_state : Option String := none
  max_current : Option ℚ := none
  solar_mode : Option String := none
  release_state : Option String := none
  deriving DecidableEq, Repr

/-- Python str.upper() for the ASCII enum names of this wire format
(String.toUpper of the character data). -/
def pyUpper (s : String) : String :=
  ⟨s.data.map Char.toUpper⟩

/-- Name lookup HypervoltLockState[name]; none models the KeyError raised
on an unrecognized name. -/
def lockStateFromName : String → Option HypervoltLockState
  | "UNLOCKED" => some .UNLOCKED
  | "PENDING_LOCK" => some .PENDING_LOCK
  | "LOCKED" => some .LOCKED
  | _ => none

/-- Name lookup HypervoltChargeMode[name]. -/
def chargeModeFromName : String → Option HypervoltChargeMode
  | "BOOST" => some .BOOST
  | "ECO" => some .ECO
  | "SUPER_ECO" => some .SUPER_ECO
  | _ => none

/-- Name lookup HypervoltReleaseState[name]. -/
def releaseStateFromName : String → Option HypervoltReleaseState
  | "DEFAULT" => some .DEFAULT
  | "RELEASED" => some .RELEASED
  | _ => none

/-- The body of on_message_sync_snapshot's per-item loop.  Fields are
written in source order (brightness, lock_state, max_current, solar_mode,
release_state); an unrecognized enum name raises a KeyError at that
assignment (Boolean true), keeping the writes already performed and
skipping everything after it. -/
def applySyncItem (item : SyncItem) (state : HypervoltDeviceState) :
    HypervoltDeviceState × Bool :=
  let state :=
    match item.brightness with
    | some v => { state with led_brightness := some v }
    | none => state
  let afterLock : HypervoltDeviceState × Bool :=
    match item.lock_state with
    | some name =>
      match lockStateFromName (pyUpper name) with
      | some v => ({ state with lock_state := some v }, false)
      | none => (state, true)
    | none => (state, false)
  if afterLock.2 then afterLock else
  let state := afterLock.1
  let state :=
    match item.max_current with
    | some v => { state with max_current_milliamps := some v }
    | none => state
  let afterSolar : HypervoltDeviceState × Bool :=
    match item.solar_mode with
    | some name =>
      match chargeModeFromName (pyUpper name) with
      | some v => ({ state with charge_mode := some v }, false)
      | none => (state, true)
    | none => (state, false)
  if afterSolar.2 then afterSolar else
  let state := afterSolar.1
  match item.release_state with
  | some name =>
    match releaseStateFromName (pyUpper name) with
    | some v => ({ state with release_state := some v }, false)
    | none => (state, true)
  | none => (state, false)

/-- HypervoltApiClient.on_message_sync_snapshot: iterates over the items
of the message.  A KeyError raised while processing one item propagates
out of the for loop, so the remaining items are not applied; the Boolean
records whether the call raised. -/
def on_message_sync_snapshot (result : List SyncItem)
    (state : HypervoltDeviceState) : HypervoltDeviceState × Bool :=
  match result with
  | [] => (state, false)
  | item :: rest =>
    let r := applySyncItem item state
    if r.2 then r else on_message_sync_snapshot rest r.1

/-- The sync.snapshot / sync.apply branch of
HypervoltApiClient.on_sync_websocket_message.  The surrounding try/except
catches and logs any exception from on_message_sync_snapshot, so nothing
propagates to the socket loop; the second component records whether
on_state_updated_async_callback is reached (it is skipped when the
projection raised). -/
def on_sync_websocket_message_sync_apply (items : List SyncItem)
    (state : HypervoltDeviceState) : HypervoltDeviceState × Bool :=
  let r := on_message_sync_snapshot items state
  (r.1, !r.2)

/-! ## TokenManager (HypervoltApiClient.login / refresh_access_token /
update_from_token_response) -/

/-- Error taxonomy of the auth path: InvalidAuth, CannotConnect, and any
other Python exception (transport errors, JSON errors, ...). -/
inductive PyExc
  | invalidAuth
  | cannotConnect
  | otherExc
  deriving DecidableEq, Repr

/-- Parsed body of a 2xx token-endpoint response (the fields the client
reads). -/
structure TokenResponse where
  access_token : String
  refresh_token : String
  expires_in : Int
  deriving DecidableEq, Repr

/-- The token-holding attributes of HypervoltApiClient.  Times are
absolute instants in seconds. -/
structure HypervoltApiClientAuth where
  access_token : Option String := none
  refresh_token : Option String := none
  access_token_expires_at_date : Option Int := none
  deriving DecidableEq, Repr

/-- Outcome of one aiohttp POST to the token endpoint: a response with a
status code (body parsed only on 2xx) or a raised exception from the
request itself. -/
inductive HttpPostResult
  | response (status : Int) (body : TokenResponse)
  | raised (e : PyExc)
  deriving DecidableEq, Repr

/-- HypervoltApiClient.update_from_token_response.  Note the source line
overriding the server-provided expires_in with a hardcoded 5 minutes
(its comment: Reduce the expiry time to 5 minutes for testing). -/
def update_from_token_response (now : Int) (client : HypervoltApiClientAuth)
    (response_dict : TokenResponse) : HypervoltApiClientAuth :=
  let client := { client with
    refresh_token := some response_dict.refresh_token,
    access_token := some response_dict.access_token }
  let expires_in := response_dict.expires_in
  let expires_in := 5 * 60
  { client with access_token_expires_at_date := some (now + expires_in) }

/-- HypervoltApiClient.refresh_access_token.  2xx stores the new tokens
and returns the access token; 4xx nulls both stored tokens and raises
InvalidAuth; any other status raises CannotConnect; an exception from the
POST itself is logged and re-raised unchanged (bare raise). -/
def refresh_access_token (now : Int) (client : HypervoltApiClientAuth)
    (post : HttpPostResult) : HypervoltApiClientAuth × Except PyExc String :=
  match post with
  | .raised e => (client, .error e)
  | .response status body =>
    if 200 ≤ status ∧ status < 300 then
      let client := update_from_token_response now client body
      (client, .ok body.access_token)
    else if 400 ≤ status ∧ status < 500 then
      ({ client with access_token := none, refresh_token := none },
        .error .invalidAuth)
    else
      (client, .error .cannotConnect)

/-- The credential-login block of HypervoltApiClient.login (its second
try).  2xx stores tokens and returns the access token; 4xx raises
InvalidAuth (stored tokens are left as they are); the final except
clauses re-raise InvalidAuth as InvalidAuth and turn every other
exception into CannotConnect. -/
def login_credential_attempt (now : Int) (client : HypervoltApiClientAuth)
    (post : HttpPostResult) : HypervoltApiClientAuth × Except PyExc String :=
  match post with
  | .raised e =>
    (client, .error (if e = .invalidAuth then .invalidAuth else .cannotConnect))
  | .response status body =>
    if 200 ≤ status ∧ status < 300 then
      let client := update_from_token_response now client body
      (client, .ok body.access_token)
    else if 400 ≤ status ∧ status < 500 then
      (client, .error .invalidAuth)
    else
      (client, .error .cannotConnect)

/-- HypervoltApiClient.login: when a refresh token is stored, first
attempts refresh_access_token; only InvalidAuth and CannotConnect from
the refresh are caught (falling through to the credential login below);
any other exception from the refresh propagates out of login.  The two
HttpPostResult arguments are the outcomes the network would produce for
the refresh POST and for the credential POST. -/
def login (now : Int) (client : HypervoltApiClientAuth)
    (refresh_post login_post : HttpPostResult) :
    HypervoltApiClientAuth × Except PyExc String :=
  match client.refresh_token with
  | none => login_credential_attempt now client login_post
  | some _ =>
    let r := refresh_access_token now client refresh_post
    match r.2 with
    | .ok tok => (r.1, .ok tok)
    | .error .invalidAuth => login_credential_attempt now r.1 login_post
    | .error .cannotConnect => login_credential_attempt now r.1 login_post
    | .error .otherExc => (r.1, .error .otherExc)

/-! ## ReconnectSupervisor backoff (HypervoltApiClient
get_intial_backoff_delay_secs / increase_backoff_delay and the message
loop of notify_on_websocket) -/

/-- random.randint(3, 12), modelled by an explicit random draw: the
result is always in [3, 12] and every value in [3, 12] is reachable. -/
def get_intial_backoff_delay_secs (rand : Nat) : Nat :=
  3 + rand % 10

/-- HypervoltApiClient.increase_backoff_delay: min(300, int(delay * 1.7)).
Over the reachable range (delay at most 300) the Python float expression
int(delay * 1.7) equals the integer floor delay * 17 / 10. -/
def increase_backoff_delay (delay_secs : Nat) : Nat :=
  min 300 (delay_secs * 17 / 10)

/-- The backoff value after n consecutive failed or short-lived
connection attempts starting from a seed. -/
def backoff_iterate (seed : Nat) : Nat → Nat
  | 0 => seed
  | n + 1 => increase_backoff_delay (backoff_iterate seed n)

/-- The msg_count / backoff_seconds bookkeeping of one iteration of
notify_on_websocket's message loop: after handling a message the counter
is incremented, and once it exceeds 3 the backoff is reset to a fresh
initial random value. -/
def message_loop_backoff_step (rand : Nat) (st : Nat × Nat) : Nat × Nat :=
  let msg_count := st.1 + 1
  let backoff_seconds :=
    if 3 < msg_count then get_intial_backoff_delay_secs rand else st.2
  (msg_count, backoff_seconds)

/-- (msg_count, backoff_seconds) after n messages have been processed in
one connection, starting from msg_count = 0 and the given backoff. -/
def message_loop_backoff (rand : Nat) (backoff_seconds : Nat) :
    Nat → Nat × Nat
  | 0 => (0, backoff_seconds)
  | n + 1 => message_loop_backoff_step rand (message_loop_backoff rand backoff_seconds n)

/-! ## UpdateCoordinator (hypervolt_update_coordinator.py) -/

/-- timedelta(minutes=4), in seconds. -/
def websocket_staleness_threshold : Int := 4 * 60

/-- timedelta(minutes=50), in seconds. -/
def websocket_stale_reconnect_backoff : Int := 50 * 60

/-- Snapshot of the coordinator and client attributes read by the fast
path of HypervoltUpdateCoordinator._update.  api_session_open stands for
api_session being set and not closed; session_has_authorization for the
authorization header being present; websocket_sync_connected for
api.websocket_sync being set.

last_websocket_activity_time is Modelled from the spec: the api-client
code that maintains this timestamp is missing from the sources here (only
its reader _is_websocket_stale is present); per spec section 4.3, every
inbound frame (and the connection itself) updates a last-activity
timestamp, so it is modelled as an optional absolute instant in seconds,
none while no websocket has connected. -/
structure HypervoltCoordinatorState where
  api_session_open : Bool
  session_has_authorization : Bool
  websocket_sync_connected : Bool
  charger_major_version : Nat
  last_websocket_activity_time : Option Int
  last_stale_reconnect_attempt : Option Int
  now : Int
  data : HypervoltDeviceState
  deriving Repr

/-- HypervoltUpdateCoordinator._is_websocket_stale: false while no
timestamp exists, otherwise whether the time since the last activity
exceeds the staleness threshold. -/
def is_websocket_stale (c : HypervoltCoordinatorState) : Bool :=
  match c.last_websocket_activity_time with
  | none => false
  | some t => websocket_staleness_threshold < c.now - t

/-- HypervoltUpdateCoordinator._should_skip_stale_reconnect: false when
no stale reconnection was ever attempted, otherwise whether the last
attempt is more recent than the 50-minute backoff. -/
def should_skip_stale_reconnect (c : HypervoltCoordinatorState) : Bool :=
  match c.last_stale_reconnect_attempt with
  | none => false
  | some t => c.now - t < websocket_stale_reconnect_backoff

/-- What one call of HypervoltUpdateCoordinator._update decides to do. -/
inductive UpdateAction
  | scheduleReloadAndReturnData
  | tokenCheckAndReturnData
  | rebuildSession
  deriving DecidableEq, Repr

/-- Observable outcome of _update's branching: the action taken, the
value returned when the fast path returns self.data directly, the new
last_stale_reconnect_attempt, whether an integration reload task was
scheduled, and whether the existing session/tasks were torn down. -/
structure UpdateStepResult where
  action : UpdateAction
  returned_data : Option HypervoltDeviceState
  last_stale_reconnect_attempt : Option Int
  reload_scheduled : Bool
  session_torn_down : Bool
  deriving Repr

/-- HypervoltUpdateCoordinator._update, up to its first return or raise.
With a live authenticated session and a connected sync websocket: on a
version-3-or-later charger that is stale and not inside the post-stale
backoff window, it records the attempt time, schedules a full integration
reload and returns self.data immediately; otherwise it proceeds to the
token-expiry check (and, for version 2, the REST schedule poll) - that
continuation is abstracted as tokenCheckAndReturnData.  Without a live
session it raises InvalidAuth internally, landing in the except branch
that cancels the socket tasks, replaces the HTTP session and re-logs-in
(rebuildSession). -/
def update_step (c : HypervoltCoordinatorState) : UpdateStepResult :=
  if c.api_session_open && c.session_has_authorization && c.websocket_sync_connected then
    if 3 ≤ c.charger_major_version ∧ is_websocket_stale c then
      if should_skip_stale_reconnect c then
        { action := .tokenCheckAndReturnData,
          returned_data := none,
          last_stale_reconnect_attempt := c.last_stale_reconnect_attempt,
          reload_scheduled := false,
          session_torn_down := false }
      else
        { action := .scheduleReloadAndReturnData,
          returned_data := some c.data,
          last_stale_reconnect_attempt := some c.now,
          reload_scheduled := true,
          session_torn_down := false }
    else
      { action := .tokenCheckAndReturnData,
        returned_data := none,
        last_stale_reconnect_attempt := c.last_stale_reconnect_attempt,
        reload_scheduled := false,
        session_torn_down := false }
  else
    { action := .rebuildSession,
      returned_data := none,
      last_stale_reconnect_attempt := c.last_stale_reconnect_attempt,
      reload_scheduled := false,
      session_torn_down := true }

/-! ## Schedule-setting service: interval merge (service.py,
async_set_schedule) -/

/-- The inner while loop of the merge step: time_a absorbs following
intervals as long as its (updated) end time equals the next interval's
start time; at the first non-adjoining interval the outer loop emits
time_a and restarts from that interval. -/
def merge_intervals_from (time_a : HypervoltScheduleInterval) :
    List HypervoltScheduleInterval → List HypervoltScheduleInterval
  | [] => [time_a]
  | b :: rest =>
    if time_a.end_time = b.start_time then
      merge_intervals_from { time_a with end_time := b.end_time } rest
    else
      time_a :: merge_intervals_from b rest

/-- The interval-merge step of async_set_schedule (Merging continuous
times): builds merged_intervals from intervals. -/
def merge_intervals : List HypervoltScheduleInterval → List HypervoltScheduleInterval
  | [] => []
  | a :: rest => merge_intervals_from a rest

/-- Boolean chain predicate: each interval's end time equals the next
interval's start time. -/
def adjoining_chain : List HypervoltScheduleInterval → Bool
  | [] => true
  | [_] => true
  | a :: b :: rest => (a.end_time = b.start_time) && adjoining_chain (b :: rest)

/-! ## Helper lemmas -/

lemma pyNumOrZero_some (x : ℚ) : pyNumOrZero (some x) = x := by
  by_cases hx : x = 0 <;> simp [pyNumOrZero, hx]

lemma on_message_session_charging (sid wh : ℚ) (s : HypervoltDeviceState) :
    on_message_session (charging_session_message sid wh) s =
      ({ s with is_charging := some true, session_id := some sid, session_watthours := some wh, session_watthours_total_increasing := some (max (pyNumOrZero s.session_watthours_total_increasing) wh) }, false) :=
  rfl

lemma apply_session_messages_running_max (p : ℚ × ℚ) (ps : List (ℚ × ℚ))
    (s : HypervoltDeviceState) :
    (apply_session_messages ((p :: ps).map fun q => charging_session_message q.1 q.2) s).session_watthours_total_increasing
      = some (((p :: ps).map Prod.snd).foldl max (pyNumOrZero s.session_watthours_total_increasing)) := by
  induction ps generalizing p s with
  | nil =>
    simp [apply_session_messages, on_message_session_charging]
  | cons q qs ih =>
    have h1 : apply_session_messages ((p :: q :: qs).map fun r => charging_session_message r.1 r.2) s
        = apply_session_messages ((q :: qs).map fun r => charging_session_message r.1 r.2)
          ((on_message_session (charging_session_message p.1 p.2) s).1) := rfl
    rw [h1, on_message_session_charging, ih]
    simp [pyNumOrZero_some]

/-! ## Claims about the session-payload energy counter (C2, C10) -/

/-- C2 counterexample: a payload carrying session id 2 and watt_hours 5,
applied while charging to a state whose stored session id is 1 and whose
derived counter is 100, leaves the counter at 100: it is not reset to
zero or unknown on a session-id change, contradicting the claim. -/
theorem C2_counterexample_no_reset_on_session_change :
    ((on_message_session (charging_session_message 2 5)
        { is_charging := some true, session_id := some 1, session_watthours := some 100, session_watthours_total_increasing := some 100 }).1.session_id = some 2)
    ∧ ((on_message_session (charging_session_message 2 5)
        { is_charging := some true, session_id := some 1, session_watthours := some 100, session_watthours_total_increasing := some 100 }).1.session_watthours_total_increasing = some 100)
    ∧ (2 : ℚ) ≠ 1 ∧ (some (100 : ℚ)) ≠ none ∧ (some (100 : ℚ)) ≠ some 0 := by
  refine ⟨rfl, ?_, by norm_num, by simp, by simp⟩
  rw [on_message_session_charging]
  simp [pyNumOrZero_some]
  norm_num

/-- C2 (amended): for every nonempty sequence of session payloads applied
via on_message_session with charging true, the derived counter equals the
running maximum of all raw watt-hour readings in the sequence together
with the (Python-truthy) previous counter value - regardless of any
session-id changes; the counter is never reset by a session-id change. -/
theorem C2_counter_is_running_max (pairs : List (ℚ × ℚ))
    (s : HypervoltDeviceState) (h : pairs ≠ []) :
    (apply_session_messages (pairs.map fun p => charging_session_message p.1 p.2) s).session_watthours_total_increasing
      = some ((pairs.map Prod.snd).foldl max (pyNumOrZero s.session_watthours_total_increasing)) := by
  cases pairs with
  | nil => exact absurd rfl h
  | cons p ps => exact apply_session_messages_running_max p ps s

/-- C2 witness: the amended running-max theorem evaluated on the concrete
sequence (session 1, 10 Wh) then (session 2, 5 Wh) from a fresh state. -/
theorem C2_counter_is_running_max_witness :
    ([((1 : ℚ), (10 : ℚ)), (2, 5)] ≠ [])
    ∧ (apply_session_messages ([((1 : ℚ), (10 : ℚ)), (2, 5)].map fun p => charging_session_message p.1 p.2) {}).session_watthours_total_increasing
      = some (([((1 : ℚ), (10 : ℚ)), (2, 5)].map Prod.snd).foldl max (pyNumOrZero ({} : HypervoltDeviceState).session_watthours_total_increasing)) :=
  ⟨by simp, C2_counter_is_running_max [(1, 10), (2, 5)] {} (by simp)⟩

/-- C10: a session payload with charging true and no watt_hours key,
applied to a state whose session_watthours has never been observed,
raises in the derived-counter computation after the charging flag (and
any present session id) has already been written, and the catching
websocket handler keeps that partially updated state. -/
theorem C10_missing_watt_hours_raises_after_partial_update
    (m : SessionMessage) (s : HypervoltDeviceState)
    (hch : m.charging = some true) (hwh : m.watt_hours = none)
    (hs : s.session_watthours = none) :
    (on_message_session m s).2 = true
    ∧ (on_message_session m s).1.is_charging = some true
    ∧ (on_message_session m s).1.session_id = m.session.or s.session_id
    ∧ on_session_in_progress_websocket_message m s = (on_message_session m s).1 := by
  have hfu_charging : (on_message_session_field_updates m s).is_charging = some true := by
    simp [on_message_session_field_updates, hch]
  have hfu_wh : (on_message_session_field_updates m s).session_watthours = none := by
    simp [on_message_session_field_updates, hwh, hs]
  have hfu_sid : (on_message_session_field_updates m s).session_id = m.session.or s.session_id := by
    cases hsess : m.session <;> simp [on_message_session_field_updates, hsess, Option.or]
  have hmain : on_message_session m s = (on_message_session_field_updates m s, true) := by
    simp only [on_message_session]
    rw [hfu_charging, hfu_wh]
    simp [pyTruthyBool]
  refine ⟨by rw [hmain], ?_, ?_, rfl⟩
  · rw [hmain]; exact hfu_charging
  · rw [hmain]; exact hfu_sid

/-- C10 witness: the payload containing only charging=true applied to a
fresh state. -/
theorem C10_missing_watt_hours_raises_after_partial_update_witness :
    (({ charging := some true } : SessionMessage).charging = some true)
    ∧ ((on_message_session { charging := some true } ({} : HypervoltDeviceState)).2 = true
      ∧ (on_message_session { charging := some true } ({} : HypervoltDeviceState)).1.is_charging = some true
      ∧ (on_message_session { charging := some true } ({} : HypervoltDeviceState)).1.session_id = (Option.or (none : Option ℚ) (none : Option ℚ))
      ∧ on_session_in_progress_websocket_message { charging := some true } ({} : HypervoltDeviceState) = (on_message_session { charging := some true } ({} : HypervoltDeviceState)).1) :=
  ⟨rfl, C10_missing_watt_hours_raises_after_partial_update _ _ rfl rfl rfl⟩

/-! ## Claims about sync.snapshot / sync.apply projection (C8, C6) -/

/-- C8: projecting the frame with params [brightness 0.5] onto any
DeviceState sets led_brightness to 0.5 and leaves every other field
unchanged (the result is the record update of the input state in that one
field); the same holds for any brightness value, and an item with no
recognized keys leaves the state untouched. -/
theorem C8_brightness_frame_effect (s : HypervoltDeviceState) (b : ℚ) :
    on_message_sync_snapshot [{ brightness := some (1 / 2) }] s = ({ s with led_brightness := some (1 / 2) }, false)
    ∧ on_message_sync_snapshot [{ brightness := some b }] s = ({ s with led_brightness := some b }, false)
    ∧ on_message_sync_snapshot [({} : SyncItem)] s = (s, false) :=
  ⟨rfl, rfl, rfl⟩

/-- C6 counterexample: in the message [max_current 16000, lock_state
"bogus", brightness 0.25] the unknown enum string aborts the whole
message processing: the brightness item after it is not projected
(led_brightness stays none instead of becoming 0.25), contradicting the
claim that only the offending field fails. -/
theorem C6_counterexample_unknown_enum_aborts_message :
    ((on_message_sync_snapshot [{ max_current := some 16000 }, { lock_state := some "bogus" }, { brightness := some (1 / 4) }] ({} : HypervoltDeviceState)).1.led_brightness = none)
    ∧ (some (1 / 4 : ℚ)) ≠ none
    ∧ ((on_message_sync_snapshot [{ max_current := some 16000 }, { lock_state := some "bogus" }, { brightness := some (1 / 4) }] ({} : HypervoltDeviceState)).1.max_current_milliamps = some 16000)
    ∧ ((on_message_sync_snapshot [{ max_current := some 16000 }, { lock_state := some "bogus" }, { brightness := some (1 / 4) }] ({} : HypervoltDeviceState)).2 = true) := by
  refine ⟨rfl, by simp, rfl, rfl⟩

lemma on_message_sync_snapshot_append_abort (pre : List SyncItem)
    (bad : SyncItem) (rest : List SyncItem) (s : HypervoltDeviceState)
    (hpre : (on_message_sync_snapshot pre s).2 = false)
    (hbad : (applySyncItem bad (on_message_sync_snapshot pre s).1).2 = true) :
    on_message_sync_snapshot (pre ++ bad :: rest) s
      = ((applySyncItem bad (on_message_sync_snapshot pre s).1).1, true) := by
  induction pre generalizing s with
  | nil =>
    have hb : (applySyncItem bad s).2 = true := hbad
    simp only [List.nil_append, on_message_sync_snapshot, hb, if_true]
    exact Prod.ext rfl hb
  | cons i pre2 ih =>
    cases hri : (applySyncItem i s).2 with
    | true =>
      rw [show on_message_sync_snapshot (i :: pre2) s = applySyncItem i s by
        simp [on_message_sync_snapshot, hri]] at hpre
      rw [hri] at hpre
      exact absurd hpre (by simp)
    | false =>
      have heq : on_message_sync_snapshot (i :: pre2) s
          = on_message_sync_snapshot pre2 (applySyncItem i s).1 := by
        simp [on_message_sync_snapshot, hri]
      rw [heq] at hpre hbad
      have hstep : on_message_sync_snapshot ((i :: pre2) ++ bad :: rest) s
          = on_message_sync_snapshot (pre2 ++ bad :: rest) (applySyncItem i s).1 := by
        simp [on_message_sync_snapshot, hri]
      rw [hstep, heq, ih _ hpre hbad]

/-- C6 (amended): an unrecognized enum string makes the projection raise
at that field.  For every message consisting of a prefix of cleanly
applying items, an offending item, and an arbitrary tail: the prefix is
projected onto DeviceState, the offending item keeps only the field
writes made before its failing field, every item after it is dropped, and
the raise is caught by on_sync_websocket_message (which skips the
state-updated callback), so the socket loop continues.  An item raises
whenever its lock_state, solar_mode or release_state string is
unrecognized (for the later enum fields: provided no earlier enum field
of the same item failed first). -/
theorem C6_unknown_enum_aborts_rest_of_message (s : HypervoltDeviceState)
    (pre : List SyncItem) (bad : SyncItem) (rest : List SyncItem)
    (hpre : (on_message_sync_snapshot pre s).2 = false)
    (hbad : (applySyncItem bad (on_message_sync_snapshot pre s).1).2 = true) :
    (on_message_sync_snapshot (pre ++ bad :: rest) s
        = ((applySyncItem bad (on_message_sync_snapshot pre s).1).1, true)
      ∧ on_sync_websocket_message_sync_apply (pre ++ bad :: rest) s
        = ((applySyncItem bad (on_message_sync_snapshot pre s).1).1, false))
    ∧ (∀ (item : SyncItem) (name : String) (s2 : HypervoltDeviceState),
        item.lock_state = some name → lockStateFromName (pyUpper name) = none →
        (applySyncItem item s2).2 = true)
    ∧ (∀ (item : SyncItem) (name : String) (s2 : HypervoltDeviceState),
        item.solar_mode = some name → chargeModeFromName (pyUpper name) = none →
        (∀ l, item.lock_state = some l → (lockStateFromName (pyUpper l)).isSome = true) →
        (applySyncItem item s2).2 = true)
    ∧ (∀ (item : SyncItem) (name : String) (s2 : HypervoltDeviceState),
        item.release_state = some name → releaseStateFromName (pyUpper name) = none →
        (∀ l, item.lock_state = some l → (lockStateFromName (pyUpper l)).isSome = true) →
        (∀ m, item.solar_mode = some m → (chargeModeFromName (pyUpper m)).isSome = true) →
        (applySyncItem item s2).2 = true) := by
  have habort := on_message_sync_snapshot_append_abort pre bad rest s hpre hbad
  refine ⟨⟨habort, by simp [on_sync_websocket_message_sync_apply, habort]⟩, ?_, ?_, ?_⟩
  · intro item name s2 hname hlook
    simp [applySyncItem, hname, hlook]
  · intro item name s2 hname hlook hlock
    cases hl : item.lock_state with
    | none => simp [applySyncItem, hl, hname, hlook]
    | some l =>
      obtain ⟨v, hv⟩ := Option.isSome_iff_exists.mp (hlock l hl)
      simp [applySyncItem, hl, hv, hname, hlook]
  · intro item name s2 hname hlook hlock hsolar
    cases hl : item.lock_state with
    | none =>
      cases hm : item.solar_mode with
      | none => simp [applySyncItem, hl, hm, hname, hlook]
      | some m =>
        obtain ⟨w, hw⟩ := Option.isSome_iff_exists.mp (hsolar m hm)
        simp [applySyncItem, hl, hm, hw, hname, hlook]
    | some l =>
      obtain ⟨v, hv⟩ := Option.isSome_iff_exists.mp (hlock l hl)
      cases hm : item.solar_mode with
      | none => simp [applySyncItem, hl, hv, hm, hname, hlook]
      | some m =>
        obtain ⟨w, hw⟩ := Option.isSome_iff_exists.mp (hsolar m hm)
        simp [applySyncItem, hl, hv, hm, hw, hname, hlook]

/-- C6 witness: the amended theorem at the concrete message of the
counterexample - prefix [max_current 16000], offending item
[lock_state "bogus"], tail [brightness 0.25]. -/
theorem C6_unknown_enum_aborts_rest_of_message_witness :
    ((on_message_sync_snapshot [{ max_current := some 16000 }] ({} : HypervoltDeviceState)).2 = false)
    ∧ ((applySyncItem { lock_state := some "bogus" } (on_message_sync_snapshot [{ max_current := some 16000 }] ({} : HypervoltDeviceState)).1).2 = true)
    ∧ (on_message_sync_snapshot ([{ max_current := some 16000 }] ++ { lock_state := some "bogus" } :: [{ brightness := some (1 / 4) }]) ({} : HypervoltDeviceState)
        = ((applySyncItem { lock_state := some "bogus" } (on_message_sync_snapshot [{ max_current := some 16000 }] ({} : HypervoltDeviceState)).1).1, true)
      ∧ on_sync_websocket_message_sync_apply ([{ max_current := some 16000 }] ++ { lock_state := some "bogus" } :: [{ brightness := some (1 / 4) }]) ({} : HypervoltDeviceState)
        = ((applySyncItem { lock_state := some "bogus" } (on_message_sync_snapshot [{ max_current := some 16000 }] ({} : HypervoltDeviceState)).1).1, false)) :=
  ⟨rfl, rfl,
    (C6_unknown_enum_aborts_rest_of_message {} [{ max_current := some 16000 }]
      { lock_state := some "bogus" } [{ brightness := some (1 / 4) }] rfl rfl).1⟩

/-! ## Claims about the token manager (C3, C4, C5) -/

/-- C3: the stored expiry instant is independent of the server-provided
expires_in value: it is always now + 300 seconds, which exceeds
now + expires_in whenever the server grants less than 300 seconds.  The
leftover test override in update_from_token_response contradicts the
specified behavior (expiry derived from, and bounded by, the server
value). -/
theorem C3_expiry_ignores_server_value :
    ((update_from_token_response 0 {} { access_token := "a", refresh_token := "r", expires_in := 60 }).access_token_expires_at_date = some 300)
    ∧ ¬ ((300 : Int) ≤ 0 + 60)
    ∧ ((update_from_token_response 0 {} { access_token := "a", refresh_token := "r", expires_in := 60 }).access_token_expires_at_date
      = (update_from_token_response 0 {} { access_token := "a", refresh_token := "r", expires_in := 999999 }).access_token_expires_at_date) :=
  ⟨rfl, by norm_num, rfl⟩

/-- C4 counterexample: a transport exception raised during the refresh
attempt propagates out of login without the credential login ever being
attempted, even though that credential login (a 200 response) would have
succeeded - so the refresh failure, not the final login outcome, is
surfaced. -/
theorem C4_counterexample_transport_error_skips_fallback :
    ((login 0 { access_token := some "a", refresh_token := some "r" } (.raised .otherExc) (.response 200 { access_token := "na", refresh_token := "nr", expires_in := 3600 })).2 = .error .otherExc)
    ∧ ((login_credential_attempt 0 { access_token := some "a", refresh_token := some "r" } (.response 200 { access_token := "na", refresh_token := "nr", expires_in := 3600 })).2 = .ok "na") :=
  ⟨rfl, rfl⟩

/-- C4 (amended): with a stored refresh token, login falls back to the
credential login exactly when the refresh raises InvalidAuth or
CannotConnect; a successful refresh is returned directly, and any other
exception from the refresh propagates out of login with no credential
attempt. -/
theorem C4_fallback_only_on_auth_errors (now : Int)
    (client : HypervoltApiClientAuth) (refresh_post login_post : HttpPostResult)
    (rt : String) (hrt : client.refresh_token = some rt) :
    ((refresh_access_token now client refresh_post).2 = .error .invalidAuth
      ∨ (refresh_access_token now client refresh_post).2 = .error .cannotConnect →
      login now client refresh_post login_post
        = login_credential_attempt now (refresh_access_token now client refresh_post).1 login_post)
    ∧ ((refresh_access_token now client refresh_post).2 = .error .otherExc →
      login now client refresh_post login_post
        = ((refresh_access_token now client refresh_post).1, .error .otherExc))
    ∧ (∀ tok, (refresh_access_token now client refresh_post).2 = .ok tok →
      login now client refresh_post login_post
        = ((refresh_access_token now client refresh_post).1, .ok tok)) := by
  have key : login now client refresh_post login_post
      = (match (refresh_access_token now client refresh_post).2 with
        | .ok tok => ((refresh_access_token now client refresh_post).1, Except.ok tok)
        | .error .invalidAuth => login_credential_attempt now (refresh_access_token now client refresh_post).1 login_post
        | .error .cannotConnect => login_credential_attempt now (refresh_access_token now client refresh_post).1 login_post
        | .error .otherExc => ((refresh_access_token now client refresh_post).1, Except.error PyExc.otherExc)) := by
    simp only [login, hrt]
  refine ⟨?_, ?_, ?_⟩
  · rintro (h | h) <;> rw [key, h]
  · intro h; rw [key, h]
  · intro tok h; rw [key, h]

/-- C4 witness: refresh answered with a 500 (CannotConnect), so login is
the credential attempt on the post-refresh client state. -/
theorem C4_fallback_only_on_auth_errors_witness :
    (({ access_token := some "a", refresh_token := some "r" } : HypervoltApiClientAuth).refresh_token = some "r")
    ∧ ((refresh_access_token 0 { access_token := some "a", refresh_token := some "r" } (.response 500 { access_token := "x", refresh_token := "y", expires_in := 0 })).2 = .error .cannotConnect)
    ∧ login 0 { access_token := some "a", refresh_token := some "r" } (.response 500 { access_token := "x", refresh_token := "y", expires_in := 0 }) (.response 200 { access_token := "na", refresh_token := "nr", expires_in := 3600 })
      = login_credential_attempt 0 (refresh_access_token 0 { access_token := some "a", refresh_token := some "r" } (.response 500 { access_token := "x", refresh_token := "y", expires_in := 0 })).1 (.response 200 { access_token := "na", refresh_token := "nr", expires_in := 3600 }) :=
  ⟨rfl, rfl,
    (C4_fallback_only_on_auth_errors 0 { access_token := some "a", refresh_token := some "r" }
      (.response 500 { access_token := "x", refresh_token := "y", expires_in := 0 })
      (.response 200 { access_token := "na", refresh_token := "nr", expires_in := 3600 })
      "r" rfl).1 (Or.inr rfl)⟩

/-- C5 counterexample: the refresh fails with a 500 (tokens kept), the
fallback credential login receives a 401 and raises InvalidAuth, yet both
stored tokens survive unchanged - so a 4xx on an authentication attempt
does not always null the stored tokens, and the next attempt will again
try a refresh first. -/
theorem C5_counterexample_full_login_4xx_keeps_tokens :
    login 0 { access_token := some "a", refresh_token := some "r" } (.response 500 { access_token := "x", refresh_token := "y", expires_in := 0 }) (.response 401 { access_token := "x", refresh_token := "y", expires_in := 0 })
      = ({ access_token := some "a", refresh_token := some "r" }, .error .invalidAuth)
    ∧ (some "r" : Option String) ≠ none ∧ (some "a" : Option String) ≠ none :=
  ⟨rfl, by simp, by simp⟩

/-- C5 (amended): a 4xx on the token refresh nulls both stored tokens and
raises InvalidAuth; a 4xx on the full credential login raises InvalidAuth
but leaves the stored tokens exactly as they were. -/
theorem C5_only_refresh_4xx_nulls_tokens (now : Int)
    (client : HypervoltApiClientAuth) (status : Int) (body : TokenResponse)
    (h4 : 400 ≤ status) (h5 : status < 500) :
    refresh_access_token now client (.response status body)
      = ({ client with access_token := none, refresh_token := none }, .error .invalidAuth)
    ∧ login_credential_attempt now client (.response status body)
      = (client, .error .invalidAuth) := by
  constructor
  · simp only [refresh_access_token]
    rw [if_neg (by omega), if_pos (by omega)]
  · simp only [login_credential_attempt]
    rw [if_neg (by omega), if_pos (by omega)]

/-- C5 witness: the amended theorem at a 401 response. -/
theorem C5_only_refresh_4xx_nulls_tokens_witness :
    (400 : Int) ≤ 401 ∧ (401 : Int) < 500
    ∧ (refresh_access_token 0 { access_token := some "a", refresh_token := some "r" } (.response 401 { access_token := "x", refresh_token := "y", expires_in := 0 })
        = ({ access_token := none, refresh_token := none }, .error .invalidAuth)
      ∧ login_credential_attempt 0 { access_token := some "a", refresh_token := some "r" } (.response 401 { access_token := "x", refresh_token := "y", expires_in := 0 })
        = ({ access_token := some "a", refresh_token := some "r" }, .error .invalidAuth)) :=
  ⟨by norm_num, by norm_num,
    C5_only_refresh_4xx_nulls_tokens 0 { access_token := some "a", refresh_token := some "r" }
      401 { access_token := "x", refresh_token := "y", expires_in := 0 } (by norm_num) (by norm_num)⟩

/-! ## Claims about the reconnect backoff (C7) -/

lemma backoff_iterate_lower (seed : Nat) (h3 : 3 ≤ seed) (n : Nat) :
    3 ≤ backoff_iterate seed n := by
  induction n with
  | zero => exact h3
  | succ k ih =>
    have : 3 ≤ backoff_iterate seed k * 17 / 10 := by omega
    simp only [backoff_iterate, increase_backoff_delay]
    exact le_min_iff.mpr ⟨by norm_num, this⟩

lemma backoff_iterate_upper (seed : Nat) (h12 : seed ≤ 12) (n : Nat) :
    backoff_iterate seed n ≤ 300 := by
  cases n with
  | zero => exact le_trans h12 (by norm_num)
  | succ k =>
    simp only [backoff_iterate, increase_backoff_delay]
    exact min_le_left _ _

/-- C7 counterexample: from the seed 3 (a value in [3, 12]) the backoff
reaches the 300-second cap after 9 failures and then stays constant, so
the sequence of iterates is not strictly increasing. -/
theorem C7_counterexample_constant_at_cap :
    3 ≤ (3 : Nat) ∧ (3 : Nat) ≤ 12
    ∧ backoff_iterate 3 9 = 300 ∧ backoff_iterate 3 10 = 300
    ∧ ¬ (backoff_iterate 3 9 < backoff_iterate 3 10) := by
  refine ⟨by norm_num, by norm_num, by decide, by decide, by decide⟩

/-- C7 (amended): from any seed in [3, 12] the failure step keeps the
backoff within [3, 300], strictly increases it while it is below the
300-second cap (and never decreases it); and once a connection has
delivered more than 3 messages the backoff is reset to a fresh initial
value, which always lies in [3, 12]. -/
theorem C7_backoff_growth_bound_and_reset (seed rand : Nat)
    (h3 : 3 ≤ seed) (h12 : seed ≤ 12) :
    (∀ n, backoff_iterate seed n ≤ 300)
    ∧ (∀ n, backoff_iterate seed n < 300 →
        backoff_iterate seed n < backoff_iterate seed (n + 1))
    ∧ (∀ n, backoff_iterate seed n ≤ backoff_iterate seed (n + 1))
    ∧ (∀ backoff_seconds n, 3 < n →
        (message_loop_backoff rand backoff_seconds n).2 = get_intial_backoff_delay_secs rand)
    ∧ (3 ≤ get_intial_backoff_delay_secs rand ∧ get_intial_backoff_delay_secs rand ≤ 12) := by
  have hcount : ∀ backoff_seconds n, (message_loop_backoff rand backoff_seconds n).1 = n := by
    intro backoff_seconds n
    induction n with
    | zero => rfl
    | succ k ih => simp [message_loop_backoff, message_loop_backoff_step, ih]
  refine ⟨backoff_iterate_upper seed h12, ?_, ?_, ?_, ?_, ?_⟩
  · intro n hn
    have hlo := backoff_iterate_lower seed h3 n
    simp only [backoff_iterate, increase_backoff_delay]
    exact lt_min_iff.mpr ⟨hn, by omega⟩
  · intro n
    have hhi := backoff_iterate_upper seed h12 n
    simp only [backoff_iterate, increase_backoff_delay]
    exact le_min_iff.mpr ⟨hhi, by omega⟩
  · intro backoff_seconds n hn
    cases n with
    | zero => omega
    | succ k =>
      have hk := hcount backoff_seconds k
      simp [message_loop_backoff, message_loop_backoff_step, hk]
      omega
  · simp [get_intial_backoff_delay_secs]
  · simp only [get_intial_backoff_delay_secs]
    omega

/-- C7 witness: the amended theorem at seed 3, random draw 0, evaluated
at concrete iterates and a 4-message connection. -/
theorem C7_backoff_growth_bound_and_reset_witness :
    3 ≤ (3 : Nat) ∧ (3 : Nat) ≤ 12
    ∧ backoff_iterate 3 9 ≤ 300
    ∧ (message_loop_backoff 0 100 4).2 = get_intial_backoff_delay_secs 0 :=
  ⟨by norm_num, by norm_num,
    (C7_backoff_growth_bound_and_reset 3 0 (by norm_num) (by norm_num)).1 9,
    (C7_backoff_growth_bound_and_reset 3 0 (by norm_num) (by norm_num)).2.2.2.1 100 4 (by norm_num)⟩

/-! ## Claims about the coordinator staleness path (C1) -/

/-- C1: on a version-3-or-later charger with a live authenticated session
and connected sync websocket, when the last websocket activity is older
than the 4-minute staleness threshold and no stale-triggered reconnection
lies within the 50-minute backoff window, _update records the attempt
time, schedules a full integration reload, and returns the previous
DeviceState snapshot unchanged, without tearing the session down and
without raising. -/
theorem C1_stale_v3_schedules_reload_returns_snapshot
    (c : HypervoltCoordinatorState) (t : Int)
    (hopen : c.api_session_open = true)
    (hauth : c.session_has_authorization = true)
    (hws : c.websocket_sync_connected = true)
    (hver : 3 ≤ c.charger_major_version)
    (hact : c.last_websocket_activity_time = some t)
    (hstale : websocket_staleness_threshold < c.now - t)
    (hback : ∀ t2, c.last_stale_reconnect_attempt = some t2 →
      websocket_stale_reconnect_backoff ≤ c.now - t2) :
    update_step c =
      { action := .scheduleReloadAndReturnData,
        returned_data := some c.data,
        last_stale_reconnect_attempt := some c.now,
        reload_scheduled := true,
        session_torn_down := false } := by
  have h1 : is_websocket_stale c = true := by
    simp [is_websocket_stale, hact]
    exact hstale
  have h2 : should_skip_stale_reconnect c = false := by
    cases hlsa : c.last_stale_reconnect_attempt with
    | none => simp [should_skip_stale_reconnect, hlsa]
    | some t2 =>
      have := hback t2 hlsa
      simp [should_skip_stale_reconnect, hlsa]
      omega
  simp [update_step, hopen, hauth, hws, hver, h1, h2]

/-- C1 witness: a concrete coordinator snapshot with a 1000-second-old
activity timestamp and no prior stale reconnection. -/
theorem C1_stale_v3_schedules_reload_returns_snapshot_witness :
    websocket_staleness_threshold < (1000 : Int) - 0
    ∧ update_step
        { api_session_open := true,
          session_has_authorization := true,
          websocket_sync_connected := true,
          charger_major_version := 3,
          last_websocket_activity_time := some 0,
          last_stale_reconnect_attempt := none,
          now := 1000,
          data := {} }
      = { action := .scheduleReloadAndReturnData,
          returned_data := some ({} : HypervoltDeviceState),
          last_stale_reconnect_attempt := some 1000,
          reload_scheduled := true,
          session_torn_down := false } :=
  ⟨by norm_num [websocket_staleness_threshold],
    C1_stale_v3_schedules_reload_returns_snapshot
      { api_session_open := true,
        session_has_authorization := true,
        websocket_sync_connected := true,
        charger_major_version := 3,
        last_websocket_activity_time := some 0,
        last_stale_reconnect_attempt := none,
        now := 1000,
        data := {} }
      0 rfl rfl rfl (by norm_num) rfl (by norm_num [websocket_staleness_threshold])
      (fun t2 h => nomatch h)⟩

/-! ## Claims about the schedule interval merge (C9) -/

lemma merge_intervals_from_chain (run rest : List HypervoltScheduleInterval)
    (a : HypervoltScheduleInterval)
    (hchain : adjoining_chain (a :: run) = true)
    (hsep : ∀ b ∈ rest.head?, (run.getLastD a).end_time ≠ b.start_time) :
    merge_intervals_from a (run ++ rest)
      = { a with end_time := (run.getLastD a).end_time } :: merge_intervals rest := by
  induction run generalizing a with
  | nil =>
    cases rest with
    | nil => simp [merge_intervals_from, merge_intervals]
    | cons b r =>
      have hne : a.end_time ≠ b.start_time := by
        simpa using hsep b (by simp)
      simp [merge_intervals_from, hne, merge_intervals]
  | cons c run2 ih =>
    have h1 : a.end_time = c.start_time := by
      simp [adjoining_chain] at hchain
      exact hchain.1
    have h2 : adjoining_chain (c :: run2) = true := by
      cases run2 with
      | nil => rfl
      | cons d t =>
        simp [adjoining_chain] at hchain ⊢
        exact hchain.2
    have hchain2 : adjoining_chain ({ a with end_time := c.end_time } :: run2) = true := by
      cases run2 with
      | nil => rfl
      | cons d t =>
        simp [adjoining_chain] at h2 ⊢
        exact ⟨h2.1, h2.2⟩
    have hlast : (run2.getLastD { a with end_time := c.end_time }).end_time
        = ((c :: run2).getLastD a).end_time := by
      cases run2 <;> simp only [List.getLastD_cons, List.getLastD_nil]
    have hsep2 : ∀ b ∈ rest.head?,
        (run2.getLastD { a with end_time := c.end_time }).end_time ≠ b.start_time := by
      intro b hb
      rw [hlast]
      exact hsep b hb
    have hrec := ih { a with end_time := c.end_time } hchain2 hsep2
    calc merge_intervals_from a ((c :: run2) ++ rest)
        = merge_intervals_from { a with end_time := c.end_time } (run2 ++ rest) := by
          simp [merge_intervals_from, h1]
      _ = { a with end_time := ((c :: run2).getLastD a).end_time } :: merge_intervals rest := by
          rw [hrec, hlast]

/-- C9: the interval-merge step of async_set_schedule combines every run
of consecutive intervals in which each interval's end time equals the
next interval's start time into one interval from the first start time to
the last end time, and leaves a following non-adjoining interval (and
everything after it) to be merged separately. -/
theorem C9_merge_combines_adjoining_runs (a : HypervoltScheduleInterval)
    (run rest : List HypervoltScheduleInterval)
    (hchain : adjoining_chain (a :: run) = true)
    (hsep : ∀ b ∈ rest.head?, (run.getLastD a).end_time ≠ b.start_time) :
    merge_intervals ((a :: run) ++ rest)
      = { a with end_time := (run.getLastD a).end_time } :: merge_intervals rest := by
  have h := merge_intervals_from_chain run rest a hchain hsep
  simpa [merge_intervals] using h

/-- C9 witness: [0,10] and [10,20] adjoin and merge into [0,20]; the
non-adjoining [30,40] stays separate. -/
theorem C9_merge_combines_adjoining_runs_witness :
    adjoining_chain [⟨0, 10, .BOOST, 127⟩, ⟨10, 20, .BOOST, 127⟩] = true
    ∧ merge_intervals ([⟨0, 10, .BOOST, 127⟩, ⟨10, 20, .BOOST, 127⟩] ++ [⟨30, 40, .BOOST, 127⟩])
      = ⟨0, 20, .BOOST, 127⟩ :: merge_intervals [⟨30, 40, .BOOST, 127⟩] :=
  ⟨rfl,
    C9_merge_combines_adjoining_runs ⟨0, 10, .BOOST, 127⟩ [⟨10, 20, .BOOST, 127⟩]
      [⟨30, 40, .BOOST, 127⟩] rfl
      (by intro b hb; simp at hb; subst hb; decide)⟩

end Hypervolt
